import Mathlib

/-!
Shallow embedding of the dnt_perpetual_token Anchor program
(programs/dnt-perpetual-token/src/lib.rs).

Modelling conventions:
- u64 values are Nat together with checked operations that return none when
  the mathematical result does not fit in 2^64 values; i64 values are Int
  constrained to the interval from -(2^63) to 2^63 - 1.
- A Rust call of checked_xxx(...).unwrap() is embedded as checkedXxx followed
  by unwrapU or unwrapI; an unwrap of none aborts the whole instruction, which
  the Solana runtime turns into a transaction revert with no durable state
  change, embedded here as Except.error ProgErr.panicked (the program declares
  no arithmetic error code of its own).
- The raw u64 multiplication and division on line 215 of the source
  (yes_votes * 100 / total_votes) are embedded as rawMulU64 and rawDivU64:
  division by zero always aborts in Rust, and multiplication overflow aborts
  under the overflow-checks release profile that the Anchor toolchain
  generates; both aborts are again ProgErr.panicked.
- SPL token CPI calls (transfer, mint_to) are external custody collaborators;
  each instruction returns, besides the updated accounts, the ordered list of
  custody Events it issued, so that ordering of ledger mutation versus
  custody transfer is observable.
- Clock::get() is embedded as an explicit timestamp argument, the same value
  for every read inside one instruction.
- The external oracle and tally placeholders of the source are embedded
  verbatim (fixed values); vote_on_risk_params additionally exists in a form
  parametrised by the two tally readings, matching the external read
  interface they stand for.
-/

namespace Dnt

/-- Number of distinct u64 values, 2 to the power 64. -/
def u64Size : Nat := 2 ^ 64

/-- Largest u64 value. -/
def u64Max : Nat := 2 ^ 64 - 1

/-- Smallest i64 value. -/
def i64Min : Int := -(2 ^ 63)

/-- Largest i64 value. -/
def i64Max : Int := 2 ^ 63 - 1

/-- Rust u64::checked_add. -/
def checkedAddU64 (a b : Nat) : Option Nat :=
  if a + b < u64Size then some (a + b) else none

/-- Rust u64::checked_sub. -/
def checkedSubU64 (a b : Nat) : Option Nat :=
  if b ≤ a then some (a - b) else none

/-- Rust u64::checked_mul. -/
def checkedMulU64 (a b : Nat) : Option Nat :=
  if a * b < u64Size then some (a * b) else none

/-- Rust u64::checked_div: none exactly on division by zero. -/
def checkedDivU64 (a b : Nat) : Option Nat :=
  if b = 0 then none else some (a / b)

/-- Rust i64::checked_sub. -/
def checkedSubI64 (a b : Int) : Option Int :=
  if i64Min ≤ a - b then if a - b ≤ i64Max then some (a - b) else none
  else none

/-- Rust cast of an i64 to u64 (two's-complement reinterpretation). -/
def i64AsU64 (x : Int) : Nat := (x % (2 ^ 64 : Int)).toNat

/-- Instruction outcomes: the three declared CustomError codes of the
program, plus the abort produced by an unwrap of None, a division by zero,
or an overflow of a raw arithmetic operator. The program declares no
ArithmeticOverflow error code. -/
inductive ProgErr where
  | insufficientStake
  | earlyUnstakeNotAllowed
  | notEnoughVotes
  | panicked
  deriving DecidableEq, Repr

/-- Rust Option::unwrap on a u64-valued checked operation. -/
def unwrapU (o : Option Nat) : Except ProgErr Nat :=
  match o with
  | some n => Except.ok n
  | none => Except.error ProgErr.panicked

/-- Rust Option::unwrap on an i64-valued checked operation. -/
def unwrapI (o : Option Int) : Except ProgErr Int :=
  match o with
  | some x => Except.ok x
  | none => Except.error ProgErr.panicked

/-- Raw u64 multiplication (source line 215): aborts on overflow. -/
def rawMulU64 (a b : Nat) : Except ProgErr Nat :=
  if a * b < u64Size then Except.ok (a * b) else Except.error ProgErr.panicked

/-- Raw u64 division (source line 215): aborts on division by zero. -/
def rawDivU64 (a b : Nat) : Except ProgErr Nat :=
  if b = 0 then Except.error ProgErr.panicked else Except.ok (a / b)

/-- MIN_STAKE_DURATION constant, source line 7. -/
def MIN_STAKE_DURATION : Int := 60

/-- MAX_ALLOWED_LOSS constant, source line 8. -/
def MAX_ALLOWED_LOSS : Nat := 50

/-- The State account, source lines 228-235. -/
structure State where
  bump : Nat
  total_staked : Nat
  last_update : Int
  last_rebalance : Int
  allowed_delta_threshold : Nat
  deriving DecidableEq, Repr

/-- The UserStake account, source lines 237-241. -/
structure UserStake where
  amount : Nat
  last_update : Int
  deriving DecidableEq, Repr

/-- Observable custody and ledger actions, in the order an instruction
performs them. transferToVault and transferFromVault are the SPL token
transfer CPIs; mintTo is the mint_rewards CPI; the two ledger events record
the writes to State.total_staked and UserStake.amount. -/
inductive Event where
  | transferToVault (amount : Nat)
  | transferFromVault (amount : Nat)
  | mintTo (amount : Nat)
  | ledgerTotalWrite (newTotal : Nat)
  | ledgerUserWrite (newAmount : Nat)
  deriving DecidableEq, Repr

/-- Whether an event is a custody transfer CPI. -/
def Event.isTransfer : Event → Bool
  | Event.transferToVault _ => true
  | Event.transferFromVault _ => true
  | _ => false

/-- Whether an event is a ledger write. -/
def Event.isLedgerWrite : Event → Bool
  | Event.ledgerTotalWrite _ => true
  | Event.ledgerUserWrite _ => true
  | _ => false

/-- The trace property the spec asserts for the stake and unstake paths:
every ledger write occurs strictly before every custody transfer. -/
def ledgerBeforeTransfer (evs : List Event) : Prop :=
  ∀ i j : Fin evs.length, (evs.get i).isLedgerWrite → (evs.get j).isTransfer →
    (i : Nat) < (j : Nat)

/-- Result of an instruction that touches the global state, one user stake
and the custody link. -/
structure StakeResult where
  state : State
  user_stake : UserStake
  events : List Event
  deriving DecidableEq, Repr

/-- Result of an instruction that touches the global state and the custody
link only. -/
structure RewardResult where
  state : State
  events : List Event
  deriving DecidableEq, Repr

/-- Placeholder oracle, source lines 401-404. -/
def get_funding_rate_from_oracle : Except ProgErr Nat := Except.ok 5

/-- Placeholder vault profit reading, source lines 406-409. -/
def get_arbitrage_profits_from_vault : Except ProgErr Nat := Except.ok 1000

/-- Placeholder maker volume reading, source lines 411-414. -/
def get_maker_trading_volume : Except ProgErr Nat := Except.ok 5000

/-- Conversion-rate lookup, source lines 416-419: 1 for every asset type. -/
def get_conversion_rate (_asset_type : Nat) : Except ProgErr Nat :=
  Except.ok 1

/-- Placeholder vote tally, source lines 440-443. -/
def get_total_votes : Except ProgErr Nat := Except.ok 100

/-- Placeholder vote tally, source lines 445-448. -/
def get_yes_votes : Except ProgErr Nat := Except.ok 70

/-- The initialize instruction, source lines 15-25 (named init_state here
because the source name is a Lean keyword). -/
def init_state (bump : Nat) (now : Int) : State :=
  { bump := bump
    total_staked := 0
    last_update := now
    last_rebalance := now
    allowed_delta_threshold := 100 }

/-- stake, source lines 28-47. The token transfer CPI is issued first
(lines 30-38), then total_staked and the user amount are updated with
checked additions and the user timestamp is stamped (lines 40-45). -/
def stake (st : State) (us : UserStake) (now : Int) (amount : Nat) :
    Except ProgErr StakeResult := do
  let newTotal ← unwrapU (checkedAddU64 st.total_staked amount)
  let newAmount ← unwrapU (checkedAddU64 us.amount amount)
  Except.ok
    { state := { st with total_staked := newTotal }
      user_stake := { us with amount := newAmount, last_update := now }
      events := [Event.transferToVault amount,
                 Event.ledgerTotalWrite newTotal,
                 Event.ledgerUserWrite newAmount] }

/-- stake_with_multiple_assets, source lines 50-77. The normalized amount is
computed with a checked multiplication, the ledger is updated with it, and
only then is the raw amount transferred to the vault (lines 66-75). -/
def stake_with_multiple_assets (st : State) (us : UserStake) (now : Int)
    (asset_type : Nat) (amount : Nat) : Except ProgErr StakeResult := do
  let conversion_rate ← get_conversion_rate asset_type
  let normalized_amount ← unwrapU (checkedMulU64 amount conversion_rate)
  let newTotal ← unwrapU (checkedAddU64 st.total_staked normalized_amount)
  let newAmount ← unwrapU (checkedAddU64 us.amount normalized_amount)
  Except.ok
    { state := { st with total_staked := newTotal }
      user_stake := { us with amount := newAmount, last_update := now }
      events := [Event.ledgerTotalWrite newTotal,
                 Event.ledgerUserWrite newAmount,
                 Event.transferToVault amount] }

/-- unstake, source lines 80-112. Checks the balance, then the minimum
staking duration, then decreases the user amount and the total with checked
subtractions, and finally issues the vault-to-user transfer CPI. The user
timestamp is not written. -/
def unstake (st : State) (us : UserStake) (now : Int) (amount : Nat) :
    Except ProgErr StakeResult := do
  if ¬ (amount ≤ us.amount) then Except.error ProgErr.insufficientStake else
  let dur ← unwrapI (checkedSubI64 now us.last_update)
  if ¬ (MIN_STAKE_DURATION ≤ dur) then
    Except.error ProgErr.earlyUnstakeNotAllowed else
  let newAmount ← unwrapU (checkedSubU64 us.amount amount)
  let newTotal ← unwrapU (checkedSubU64 st.total_staked amount)
  Except.ok
    { state := { st with total_staked := newTotal }
      user_stake := { us with amount := newAmount }
      events := [Event.ledgerUserWrite newAmount,
                 Event.ledgerTotalWrite newTotal,
                 Event.transferFromVault amount] }

/-- rebalance, source lines 115-119. -/
def rebalance (st : State) (now : Int) : Except ProgErr State :=
  Except.ok { st with last_rebalance := now }

/-- distribute_rewards, source lines 123-144: duration is the checked i64
subtraction cast to u64, the reward is total_staked times the fixed reward
rate 1 times the duration (both multiplications checked), minted to the
rewards account; last_update is reset to the current time afterwards. -/
def distribute_rewards (st : State) (now : Int) :
    Except ProgErr RewardResult := do
  let diff ← unwrapI (checkedSubI64 now st.last_update)
  let duration := i64AsU64 diff
  let reward_rate : Nat := 1
  let r1 ← unwrapU (checkedMulU64 st.total_staked reward_rate)
  let reward_amount ← unwrapU (checkedMulU64 r1 duration)
  Except.ok
    { state := { st with last_update := now }
      events := [Event.mintTo reward_amount] }

/-- update_rewards_based_on_funding, source lines 148-165. -/
def update_rewards_based_on_funding (st : State) :
    Except ProgErr RewardResult := do
  let funding_rate ← get_funding_rate_from_oracle
  let r1 ← unwrapU (checkedMulU64 st.total_staked funding_rate)
  let reward_amount ← unwrapU (checkedDivU64 r1 100)
  Except.ok { state := st, events := [Event.mintTo reward_amount] }

/-- distribute_arbitrage_profits, source lines 169-180. -/
def distribute_arbitrage_profits (st : State) :
    Except ProgErr RewardResult := do
  let total_profits ← get_arbitrage_profits_from_vault
  Except.ok { state := st, events := [Event.mintTo total_profits] }

/-- reward_liquidity_providers, source lines 184-196. -/
def reward_liquidity_providers (st : State) :
    Except ProgErr RewardResult := do
  let maker_volume ← get_maker_trading_volume
  let reward_amount ← unwrapU (checkedDivU64 maker_volume 1000)
  Except.ok { state := st, events := [Event.mintTo reward_amount] }

/-- vote_on_risk_params, source lines 211-221, parametrised by the two
external tally readings the placeholders stand for (spec section 6). The
ratio yes_votes * 100 / total_votes uses the raw operators of line 215. -/
def vote_on_risk_params_core (total_votes yes_votes : Nat) (st : State)
    (new_threshold : Nat) : Except ProgErr State := do
  let p ← rawMulU64 yes_votes 100
  let ratio ← rawDivU64 p total_votes
  if ¬ (60 ≤ ratio) then Except.error ProgErr.notEnoughVotes else
  Except.ok { st with allowed_delta_threshold := new_threshold }

/-- vote_on_risk_params exactly as compiled, with the placeholder tallies of
source lines 440-448. -/
def vote_on_risk_params (st : State) (new_threshold : Nat) :
    Except ProgErr State := do
  let total_votes ← get_total_votes
  let yes_votes ← get_yes_votes
  vote_on_risk_params_core total_votes yes_votes st new_threshold

/-- A pool with the singleton global state and one UserStake account per
participant; participants are drawn from the finite index type Fin k
(spec section 3: one ParticipantStake per participant, provisioned before
the first stake). -/
structure PoolState (k : Nat) where
  global : State
  stakes : Fin k → UserStake

/-- One ledger-touching instruction of the pool, with its Clock reading. -/
inductive PoolOp (k : Nat) where
  | stakeOp (p : Fin k) (now : Int) (amount : Nat)
  | stakeMultiOp (p : Fin k) (now : Int) (asset_type : Nat) (amount : Nat)
  | unstakeOp (p : Fin k) (now : Int) (amount : Nat)

/-- Run one instruction against the pool. -/
def applyOp {k : Nat} (ps : PoolState k) : PoolOp k →
    Except ProgErr (PoolState k)
  | PoolOp.stakeOp p now amount => do
      let r ← stake ps.global (ps.stakes p) now amount
      Except.ok ⟨r.state, Function.update ps.stakes p r.user_stake⟩
  | PoolOp.stakeMultiOp p now asset_type amount => do
      let r ← stake_with_multiple_assets ps.global (ps.stakes p) now
        asset_type amount
      Except.ok ⟨r.state, Function.update ps.stakes p r.user_stake⟩
  | PoolOp.unstakeOp p now amount => do
      let r ← unstake ps.global (ps.stakes p) now amount
      Except.ok ⟨r.state, Function.update ps.stakes p r.user_stake⟩

/-- Run a sequence of instructions; ok exactly when every step succeeded. -/
def applyOps {k : Nat} (ps : PoolState k) : List (PoolOp k) →
    Except ProgErr (PoolState k)
  | [] => Except.ok ps
  | op :: rest => do
      let ps1 ← applyOp ps op
      applyOps ps1 rest

/-- The freshly initialized pool: total_staked is 0 and every participant
amount is 0 (every stake account starts zeroed when provisioned). -/
def initPool (k : Nat) (bump : Nat) (now : Int) : PoolState k :=
  ⟨init_state bump now, fun _ => { amount := 0, last_update := now }⟩

/-- The conservation invariant of spec section 3: the global total equals
the sum of the participant amounts. -/
def conserved {k : Nat} (ps : PoolState k) : Prop :=
  ps.global.total_staked = ∑ i : Fin k, (ps.stakes i).amount

/-- The successful result of stake, for use in characterizations. -/
def stakeOkResult (st : State) (us : UserStake) (now : Int) (amount : Nat) :
    StakeResult :=
  { state := { st with total_staked := st.total_staked + amount }
    user_stake := { us with amount := us.amount + amount, last_update := now }
    events := [Event.transferToVault amount,
               Event.ledgerTotalWrite (st.total_staked + amount),
               Event.ledgerUserWrite (us.amount + amount)] }

/-- The successful result of stake_with_multiple_assets, whose ledger
updates use the normalized amount while the transfer carries the raw
amount. -/
def multiStakeOkResult (st : State) (us : UserStake) (now : Int)
    (normalized amount : Nat) : StakeResult :=
  { state := { st with total_staked := st.total_staked + normalized }
    user_stake := { us with amount := us.amount + normalized,
                            last_update := now }
    events := [Event.ledgerTotalWrite (st.total_staked + normalized),
               Event.ledgerUserWrite (us.amount + normalized),
               Event.transferToVault amount] }

/-- The successful result of unstake: the user timestamp field is carried
over unchanged. -/
def unstakeOkResult (st : State) (us : UserStake) (amount : Nat) :
    StakeResult :=
  { state := { st with total_staked := st.total_staked - amount }
    user_stake := { us with amount := us.amount - amount }
    events := [Event.ledgerUserWrite (us.amount - amount),
               Event.ledgerTotalWrite (st.total_staked - amount),
               Event.transferFromVault amount] }

theorem exbind_ok {α β : Type} (a : α) (f : α → Except ProgErr β) :
    (Except.ok a >>= f) = f a := rfl

theorem exbind_err {α β : Type} (e : ProgErr) (f : α → Except ProgErr β) :
    (Except.error e >>= f : Except ProgErr β) = Except.error e := rfl

/-- stake succeeds exactly when both checked additions fit in a u64, and
then produces stakeOkResult. -/
theorem stake_ok_iff {st : State} {us : UserStake} {now : Int} {amount : Nat}
    {r : StakeResult} :
    stake st us now amount = Except.ok r ↔
      st.total_staked + amount < u64Size ∧ us.amount + amount < u64Size ∧
      r = stakeOkResult st us now amount := by
  unfold stake unwrapU checkedAddU64 stakeOkResult
  split_ifs with h1 h2 <;> simp_all [exbind_ok, exbind_err, eq_comm]

/-- stake_with_multiple_assets succeeds exactly when the checked
multiplication and both checked additions fit, and then produces
multiStakeOkResult whose normalized amount is amount times the conversion
rate 1. -/
theorem multi_stake_ok_iff {st : State} {us : UserStake} {now : Int}
    {asset_type amount : Nat} {r : StakeResult} :
    stake_with_multiple_assets st us now asset_type amount = Except.ok r ↔
      amount < u64Size ∧ st.total_staked + amount < u64Size ∧
      us.amount + amount < u64Size ∧
      r = multiStakeOkResult st us now amount amount := by
  by_cases h1 : amount < u64Size <;>
  by_cases h2 : st.total_staked + amount < u64Size <;>
  by_cases h3 : us.amount + amount < u64Size <;>
    simp [stake_with_multiple_assets, get_conversion_rate, unwrapU,
      checkedMulU64, checkedAddU64, multiStakeOkResult, exbind_ok,
      exbind_err, h1, h2, h3, eq_comm]

/-- unstake unfolded into its decision tree. -/
theorem unstake_eq (st : State) (us : UserStake) (now : Int) (amount : Nat) :
    unstake st us now amount =
      if amount ≤ us.amount then
        if i64Min ≤ now - us.last_update then
          if now - us.last_update ≤ i64Max then
            if now - us.last_update < MIN_STAKE_DURATION then
              Except.error ProgErr.earlyUnstakeNotAllowed
            else
              if amount ≤ st.total_staked then
                Except.ok (unstakeOkResult st us amount)
              else Except.error ProgErr.panicked
          else Except.error ProgErr.panicked
        else Except.error ProgErr.panicked
      else Except.error ProgErr.insufficientStake := by
  by_cases h1 : amount ≤ us.amount <;>
  by_cases h2 : i64Min ≤ now - us.last_update <;>
  by_cases h3 : now - us.last_update ≤ i64Max <;>
  by_cases h4 : now - us.last_update < MIN_STAKE_DURATION <;>
  by_cases h5 : amount ≤ st.total_staked <;>
    simp [unstake, unwrapI, unwrapU, checkedSubI64, checkedSubU64,
      unstakeOkResult, exbind_ok, exbind_err, h1, h2, h3, h4, h5]

/-- unstake succeeds exactly when the balance guard passes, the i64
duration subtraction fits and meets MIN_STAKE_DURATION, and both checked
u64 subtractions succeed; it then produces unstakeOkResult. -/
theorem unstake_ok_iff {st : State} {us : UserStake} {now : Int}
    {amount : Nat} {r : StakeResult} :
    unstake st us now amount = Except.ok r ↔
      amount ≤ us.amount ∧
      i64Min ≤ now - us.last_update ∧ now - us.last_update ≤ i64Max ∧
      MIN_STAKE_DURATION ≤ now - us.last_update ∧
      amount ≤ st.total_staked ∧
      r = unstakeOkResult st us amount := by
  rw [unstake_eq]
  split_ifs with h1 h2 h3 h4 h5 <;>
    first
      | (simp [eq_comm, *]; done)
      | (simp [eq_comm, *]; intro hr; omega)

/-- stake aborts with the unwrap panic as soon as the checked addition to
total_staked overflows. -/
theorem stake_total_overflow {st : State} {us : UserStake} {now : Int}
    {amount : Nat} (h : u64Size ≤ st.total_staked + amount) :
    stake st us now amount = Except.error ProgErr.panicked := by
  have h1 : ¬ (st.total_staked + amount < u64Size) := not_lt.mpr h
  simp [stake, unwrapU, checkedAddU64, exbind_err, h1]

/-- Casting a nonnegative i64 value to u64 is the identity on the
underlying number. -/
theorem i64AsU64_of_nonneg {x : Int} (h1 : 0 ≤ x) (h2 : x ≤ i64Max) :
    i64AsU64 x = x.toNat := by
  unfold i64AsU64
  rw [Int.emod_eq_of_lt h1 (lt_of_le_of_lt h2 (by norm_num [i64Max]))]

/-- distribute_rewards on success: the minted amount is the total stake
times the reward rate 1 times the duration, and last_update is reset. -/
theorem distribute_rewards_ok {st : State} {now : Int}
    (h0 : st.total_staked < u64Size)
    (h1 : i64Min ≤ now - st.last_update) (h2 : now - st.last_update ≤ i64Max)
    (h3 : st.total_staked * i64AsU64 (now - st.last_update) < u64Size) :
    distribute_rewards st now = Except.ok
      { state := { st with last_update := now }
        events := [Event.mintTo
          (st.total_staked * 1 * i64AsU64 (now - st.last_update))] } := by
  simp [distribute_rewards, unwrapI, unwrapU, checkedSubI64, checkedMulU64,
    exbind_ok, h0, h1, h2, h3]

/-- update_rewards_based_on_funding on success: the state is untouched and
the minted amount is total_staked times the funding rate 5 over 100. -/
theorem update_rewards_ok {st : State} (h : st.total_staked * 5 < u64Size) :
    update_rewards_based_on_funding st = Except.ok
      { state := st
        events := [Event.mintTo (st.total_staked * 5 / 100)] } := by
  simp [update_rewards_based_on_funding, get_funding_rate_from_oracle,
    unwrapU, checkedMulU64, checkedDivU64, exbind_ok, h]

/-- distribute_arbitrage_profits always succeeds, mints the fixed vault
profit reading and leaves the state untouched. -/
theorem distribute_arbitrage_profits_eq (st : State) :
    distribute_arbitrage_profits st =
      Except.ok { state := st, events := [Event.mintTo 1000] } := rfl

/-- reward_liquidity_providers always succeeds, mints the maker volume
divided by 1000 and leaves the state untouched. -/
theorem reward_liquidity_providers_eq (st : State) :
    reward_liquidity_providers st =
      Except.ok { state := st, events := [Event.mintTo 5] } := rfl

/-- vote_on_risk_params_core unfolded into its decision tree. -/
theorem vote_core_eq (tv yv nt : Nat) (st : State) :
    vote_on_risk_params_core tv yv st nt =
      if yv * 100 < u64Size then
        if tv = 0 then Except.error ProgErr.panicked
        else if yv * 100 / tv < 60 then Except.error ProgErr.notEnoughVotes
        else Except.ok { st with allowed_delta_threshold := nt }
      else Except.error ProgErr.panicked := by
  by_cases h1 : yv * 100 < u64Size <;>
  by_cases h2 : tv = 0 <;>
  by_cases h3 : yv * 100 / tv < 60 <;>
    simp [vote_on_risk_params_core, rawMulU64, rawDivU64, exbind_ok,
      exbind_err, h1, h2, h3]

/-- unstake reports the early-unstake error exactly when the balance guard
passes, the i64 subtraction fits, and the duration is below
MIN_STAKE_DURATION. -/
theorem unstake_early_iff {st : State} {us : UserStake} {now : Int}
    {amount : Nat} :
    unstake st us now amount = Except.error ProgErr.earlyUnstakeNotAllowed ↔
      amount ≤ us.amount ∧
      i64Min ≤ now - us.last_update ∧ now - us.last_update ≤ i64Max ∧
      now - us.last_update < MIN_STAKE_DURATION := by
  by_cases h1 : amount ≤ us.amount <;>
  by_cases h2 : i64Min ≤ now - us.last_update <;>
  by_cases h3 : now - us.last_update ≤ i64Max <;>
  by_cases h4 : MIN_STAKE_DURATION ≤ now - us.last_update <;>
  by_cases h5 : amount ≤ st.total_staked <;>
    simp [unstake, unwrapI, unwrapU, checkedSubI64, checkedSubU64,
      exbind_ok, exbind_err, h1, h2, h3, h4, h5] <;>
    omega

/-- Summing the per-participant amounts after updating one participant. -/
theorem sum_amount_update {k : Nat} (f : Fin k → UserStake) (p : Fin k)
    (b : UserStake) :
    (∑ i : Fin k, (Function.update f p b i).amount) + (f p).amount =
      (∑ i : Fin k, (f i).amount) + b.amount := by
  have h1 : ∀ i : Fin k, (Function.update f p b i).amount =
      Function.update (fun j => (f j).amount) p b.amount i := by
    intro i
    by_cases hip : i = p
    · subst hip; simp
    · simp [Function.update_noteq hip]
  calc (∑ i : Fin k, (Function.update f p b i).amount) + (f p).amount
      = (∑ i : Fin k, Function.update (fun j => (f j).amount) p b.amount i)
          + (f p).amount := by
        rw [Finset.sum_congr rfl (fun i _ => h1 i)]
    _ = (b.amount + ∑ i ∈ Finset.univ \ {p}, (f i).amount) + (f p).amount := by
        rw [Finset.sum_update_of_mem (Finset.mem_univ p)]
    _ = (∑ i : Fin k, (f i).amount) + b.amount := by
        rw [Finset.sum_eq_sum_diff_singleton_add (Finset.mem_univ p)
          (fun i => (f i).amount)]
        omega

/-- Each successful ledger instruction preserves the conservation
invariant. -/
theorem conserved_applyOp {k : Nat} {ps ps' : PoolState k} {op : PoolOp k}
    (hc : conserved ps) (h : applyOp ps op = Except.ok ps') : conserved ps' := by
  cases op with
  | stakeOp p now amount =>
      cases hs : stake ps.global (ps.stakes p) now amount with
      | error e => simp [applyOp, hs, exbind_err] at h
      | ok r =>
          obtain ⟨h1, h2, hr⟩ := stake_ok_iff.mp hs
          simp [applyOp, hs, exbind_ok] at h
          subst h
          subst hr
          unfold conserved at hc ⊢
          simp only [stakeOkResult]
          have hsum := sum_amount_update ps.stakes p
            ⟨(ps.stakes p).amount + amount, now⟩
          simp only at hsum
          omega
  | stakeMultiOp p now asset_type amount =>
      cases hs : stake_with_multiple_assets ps.global (ps.stakes p) now
          asset_type amount with
      | error e => simp [applyOp, hs, exbind_err] at h
      | ok r =>
          obtain ⟨h1, h2, h3, hr⟩ := multi_stake_ok_iff.mp hs
          simp [applyOp, hs, exbind_ok] at h
          subst h
          subst hr
          unfold conserved at hc ⊢
          simp only [multiStakeOkResult]
          have hsum := sum_amount_update ps.stakes p
            ⟨(ps.stakes p).amount + amount, now⟩
          simp only at hsum
          omega
  | unstakeOp p now amount =>
      cases hs : unstake ps.global (ps.stakes p) now amount with
      | error e => simp [applyOp, hs, exbind_err] at h
      | ok r =>
          obtain ⟨h1, h2, h3, h4, h5, hr⟩ := unstake_ok_iff.mp hs
          simp [applyOp, hs, exbind_ok] at h
          subst h
          subst hr
          unfold conserved at hc ⊢
          simp only [unstakeOkResult]
          have hsum := sum_amount_update ps.stakes p
            ⟨(ps.stakes p).amount - amount, (ps.stakes p).last_update⟩
          simp only at hsum
          omega

/-- A successful run of any instruction sequence preserves the
conservation invariant. -/
theorem conserved_applyOps {k : Nat} {ps ps' : PoolState k}
    {ops : List (PoolOp k)} (hc : conserved ps)
    (h : applyOps ps ops = Except.ok ps') : conserved ps' := by
  induction ops generalizing ps with
  | nil =>
      simp [applyOps] at h
      subst h
      exact hc
  | cons op rest ih =>
      cases ha : applyOp ps op with
      | error e => simp [applyOps, ha, exbind_err] at h
      | ok ps1 =>
          simp [applyOps, ha, exbind_ok] at h
          exact ih (conserved_applyOp hc ha) h

/-- The freshly initialized pool is conserved. -/
theorem conserved_initPool (k bump : Nat) (now : Int) :
    conserved (initPool k bump now) := by
  simp [conserved, initPool, init_state]

/-- C1: starting from the initialized state (total_staked 0, every
participant amount 0), after any sequence of successful stake,
stake_with_multiple_assets and unstake instructions, total_staked equals
the sum of the participant amounts. -/
theorem C1_total_staked_conservation {k : Nat} (bump : Nat) (t0 : Int)
    (ops : List (PoolOp k)) (ps' : PoolState k)
    (h : applyOps (initPool k bump t0) ops = Except.ok ps') :
    ps'.global.total_staked = ∑ i : Fin k, (ps'.stakes i).amount :=
  conserved_applyOps (conserved_initPool k bump t0) h

/-- Concrete two-instruction run used to witness C1: stake 100 at time 0,
then unstake 40 at time 60. -/
def c1Ops : List (PoolOp 1) :=
  [PoolOp.stakeOp 0 0 100, PoolOp.unstakeOp 0 60 40]

/-- The pool the C1 witness run ends in. -/
def c1Final : PoolState 1 :=
  ⟨{ bump := 0, total_staked := 60, last_update := 0, last_rebalance := 0,
     allowed_delta_threshold := 100 },
   Function.update
     (Function.update (fun _ => { amount := 0, last_update := 0 }) 0
       { amount := 100, last_update := 0 }) 0
     { amount := 60, last_update := 0 }⟩

/-- C1 witness: the conservation theorem applied to the concrete run. -/
theorem C1_total_staked_conservation_witness :
    c1Final.global.total_staked = ∑ i : Fin 1, (c1Final.stakes i).amount :=
  C1_total_staked_conservation 0 0 c1Ops c1Final rfl

/-- C2 counterexample: a stake over u64::MAX aborts with the unwrap panic,
which is none of the three error kinds the program declares (in particular
no ArithmeticOverflow kind exists), and the raw vote-ratio arithmetic
aborts on a zero totalVotes reading instead of returning an error code. -/
theorem C2_counterexample :
    stake { bump := 0, total_staked := u64Max, last_update := 0,
            last_rebalance := 0, allowed_delta_threshold := 100 }
        { amount := 0, last_update := 0 } 0 1 =
      Except.error ProgErr.panicked ∧
    vote_on_risk_params_core 0 70 (init_state 0 0) 5 =
      Except.error ProgErr.panicked ∧
    ProgErr.panicked ≠ ProgErr.insufficientStake ∧
    ProgErr.panicked ≠ ProgErr.earlyUnstakeNotAllowed ∧
    ProgErr.panicked ≠ ProgErr.notEnoughVotes :=
  ⟨rfl, rfl, by decide, by decide, by decide⟩

/-- C2 amended: a stake whose amount would make total_staked exceed
u64::MAX aborts with the unwrap panic (the transaction reverts, so no
state is mutated, but the program declares no ArithmeticOverflow error
kind), and the vote-ratio computation is raw rather than checked: on a
zero totalVotes reading it aborts with the division panic. -/
theorem C2_overflow_behavior (st : State) (us : UserStake) (now : Int)
    (amount yv nt : Nat) (st2 : State)
    (h : u64Size ≤ st.total_staked + amount) :
    stake st us now amount = Except.error ProgErr.panicked ∧
    vote_on_risk_params_core 0 yv st2 nt = Except.error ProgErr.panicked := by
  constructor
  · exact stake_total_overflow h
  · rw [vote_core_eq]
    by_cases h1 : yv * 100 < u64Size <;> simp [h1]

/-- C2 witness: the amended overflow behavior at concrete inputs. -/
theorem C2_overflow_behavior_witness :
    stake { bump := 0, total_staked := u64Max, last_update := 0,
            last_rebalance := 0, allowed_delta_threshold := 100 }
        { amount := 0, last_update := 0 } 0 2 =
      Except.error ProgErr.panicked ∧
    vote_on_risk_params_core 0 70 (init_state 0 0) 9 =
      Except.error ProgErr.panicked :=
  C2_overflow_behavior _ _ 0 2 70 9 (init_state 0 0)
    (by norm_num [u64Size, u64Max])

/-- C3 counterexample: a successful concrete execution of stake whose
event trace starts with the custody transfer, before any ledger write, so
the ledger mutation does not happen before the transfer call site. -/
theorem C3_counterexample :
    stake (init_state 0 0) { amount := 0, last_update := 0 } 0 5 =
      Except.ok
        { state := { bump := 0, total_staked := 5, last_update := 0,
                     last_rebalance := 0, allowed_delta_threshold := 100 }
          user_stake := { amount := 5, last_update := 0 }
          events := [Event.transferToVault 5, Event.ledgerTotalWrite 5,
                     Event.ledgerUserWrite 5] } ∧
    ¬ ledgerBeforeTransfer [Event.transferToVault 5, Event.ledgerTotalWrite 5,
        Event.ledgerUserWrite 5] := by
  refine ⟨rfl, fun hl => ?_⟩
  have h10 := hl ⟨1, by decide⟩ ⟨0, by decide⟩ rfl rfl
  simp at h10

/-- C3 amended: stake_with_multiple_assets and unstake write the ledger
before the custody transfer call site, but stake issues the custody
transfer first, before its ledger writes. -/
theorem C3_ledger_transfer_order (st1 st2 st3 : State)
    (us1 us2 us3 : UserStake) (n1 n2 n3 : Int) (a1 t1 a2 a3 : Nat)
    (r1 r2 r3 : StakeResult)
    (h1 : stake_with_multiple_assets st1 us1 n1 t1 a1 = Except.ok r1)
    (h2 : unstake st2 us2 n2 a2 = Except.ok r2)
    (h3 : stake st3 us3 n3 a3 = Except.ok r3) :
    ledgerBeforeTransfer r1.events ∧ ledgerBeforeTransfer r2.events ∧
    ¬ ledgerBeforeTransfer r3.events ∧
    r3.events.head? = some (Event.transferToVault a3) := by
  obtain ⟨-, -, -, hr1⟩ := multi_stake_ok_iff.mp h1
  obtain ⟨-, -, -, -, -, hr2⟩ := unstake_ok_iff.mp h2
  obtain ⟨-, -, hr3⟩ := stake_ok_iff.mp h3
  subst hr1
  subst hr2
  subst hr3
  refine ⟨?_, ?_, ?_, rfl⟩
  · intro i j
    fin_cases i <;> fin_cases j <;>
      simp [multiStakeOkResult, Event.isLedgerWrite, Event.isTransfer]
  · intro i j
    fin_cases i <;> fin_cases j <;>
      simp [unstakeOkResult, Event.isLedgerWrite, Event.isTransfer]
  · intro hl
    have h10 := hl ⟨1, by norm_num [stakeOkResult]⟩ ⟨0, by norm_num [stakeOkResult]⟩
      (by simp [stakeOkResult, Event.isLedgerWrite])
      (by simp [stakeOkResult, Event.isTransfer])
    simp at h10

/-- C3 witness: the amended ordering at concrete successful executions of
the three instructions. -/
theorem C3_ledger_transfer_order_witness :
    ledgerBeforeTransfer [Event.ledgerTotalWrite 7, Event.ledgerUserWrite 7,
      Event.transferToVault 7] ∧
    ledgerBeforeTransfer [Event.ledgerUserWrite 60, Event.ledgerTotalWrite 60,
      Event.transferFromVault 40] ∧
    ¬ ledgerBeforeTransfer [Event.transferToVault 5, Event.ledgerTotalWrite 5,
        Event.ledgerUserWrite 5] ∧
    ([Event.transferToVault 5, Event.ledgerTotalWrite 5,
      Event.ledgerUserWrite 5] : List Event).head? =
      some (Event.transferToVault 5) :=
  C3_ledger_transfer_order
    (init_state 0 0) { bump := 0, total_staked := 100, last_update := 0,
                       last_rebalance := 0, allowed_delta_threshold := 100 }
    (init_state 0 0)
    { amount := 0, last_update := 0 } { amount := 100, last_update := 0 }
    { amount := 0, last_update := 0 } 0 60 0 7 2 40 5
    { state := { bump := 0, total_staked := 7, last_update := 0,
                 last_rebalance := 0, allowed_delta_threshold := 100 }
      user_stake := { amount := 7, last_update := 0 }
      events := [Event.ledgerTotalWrite 7, Event.ledgerUserWrite 7,
                 Event.transferToVault 7] }
    { state := { bump := 0, total_staked := 60, last_update := 0,
                 last_rebalance := 0, allowed_delta_threshold := 100 }
      user_stake := { amount := 60, last_update := 0 }
      events := [Event.ledgerUserWrite 60, Event.ledgerTotalWrite 60,
                 Event.transferFromVault 40] }
    { state := { bump := 0, total_staked := 5, last_update := 0,
                 last_rebalance := 0, allowed_delta_threshold := 100 }
      user_stake := { amount := 5, last_update := 0 }
      events := [Event.transferToVault 5, Event.ledgerTotalWrite 5,
                 Event.ledgerUserWrite 5] }
    rfl rfl rfl

/-- C4 counterexample: stake with amount 0 succeeds (the claim requires
failure) and still mutates state, overwriting the user timestamp. -/
theorem C4_counterexample :
    stake (init_state 0 0) { amount := 3, last_update := 0 } 7 0 =
      Except.ok
        { state := init_state 0 0
          user_stake := { amount := 3, last_update := 7 }
          events := [Event.transferToVault 0, Event.ledgerTotalWrite 0,
                     Event.ledgerUserWrite 3] } ∧
    ({ amount := 3, last_update := 7 } : UserStake) ≠
      { amount := 3, last_update := 0 } :=
  ⟨rfl, by decide⟩

/-- C4 amended: stake performs no positivity check; with amount 0 it
succeeds whenever the stored values are valid u64 values, leaves both the
total and the user amount unchanged, and overwrites the user last_update
with the current timestamp. -/
theorem C4_zero_stake (st : State) (us : UserStake) (now : Int)
    (h1 : st.total_staked < u64Size) (h2 : us.amount < u64Size) :
    stake st us now 0 = Except.ok
      { state := st
        user_stake := { us with last_update := now }
        events := [Event.transferToVault 0,
                   Event.ledgerTotalWrite st.total_staked,
                   Event.ledgerUserWrite us.amount] } := by
  apply stake_ok_iff.mpr
  refine ⟨by omega, by omega, ?_⟩
  simp [stakeOkResult]

/-- C4 witness: a concrete zero-amount stake. -/
theorem C4_zero_stake_witness :
    stake (init_state 0 0) { amount := 3, last_update := 0 } 9 0 =
      Except.ok
        { state := init_state 0 0
          user_stake := { amount := 3, last_update := 9 }
          events := [Event.transferToVault 0, Event.ledgerTotalWrite 0,
                     Event.ledgerUserWrite 3] } :=
  C4_zero_stake (init_state 0 0) { amount := 3, last_update := 0 } 9
    (by norm_num [u64Size, init_state]) (by norm_num [u64Size])

/-- C5 counterexample: with last_update at i64::MAX and now at i64::MIN,
the duration subtraction overflows i64 and unstake aborts with the unwrap
panic even though now minus last_update is far below 60, where the claim
requires the EarlyUnstakeNotAllowed error. -/
theorem C5_counterexample :
    unstake (init_state 0 0) { amount := 0, last_update := i64Max } i64Min 0 =
      Except.error ProgErr.panicked ∧
    i64Min - i64Max < 60 ∧
    ProgErr.panicked ≠ ProgErr.earlyUnstakeNotAllowed :=
  ⟨rfl, by norm_num [i64Min, i64Max], by decide⟩

/-- C5 amended: when amount is at most the staked amount and the duration
subtraction does not underflow i64, unstake fails EarlyUnstakeNotAllowed
exactly when now - last_update < 60, and the duration check passes exactly
at now - last_update = 60; when the subtraction leaves the i64 range the
call aborts with the unwrap panic instead. -/
theorem C5_early_unstake_gate (st : State) (us : UserStake) (now : Int)
    (amount : Nat) (h1 : amount ≤ us.amount)
    (h2 : i64Min ≤ now - us.last_update) :
    (unstake st us now amount = Except.error ProgErr.earlyUnstakeNotAllowed ↔
      now - us.last_update < 60) ∧
    (now - us.last_update = 60 →
      unstake st us now amount ≠
        Except.error ProgErr.earlyUnstakeNotAllowed) := by
  have hmax : (60 : Int) ≤ i64Max := by norm_num [i64Max]
  constructor
  · rw [unstake_early_iff]
    simp only [MIN_STAKE_DURATION]
    constructor
    · rintro ⟨-, -, -, h⟩
      exact h
    · intro h
      exact ⟨h1, h2, by omega, h⟩
  · intro h60
    rw [Ne, unstake_early_iff]
    simp only [MIN_STAKE_DURATION]
    rintro ⟨-, -, -, h⟩
    omega

/-- C5 witness: the amended gate at a boundary pair of concrete inputs. -/
theorem C5_early_unstake_gate_witness :
    (unstake (init_state 0 0) { amount := 5, last_update := 0 } 59 5 =
        Except.error ProgErr.earlyUnstakeNotAllowed ↔ (59 : Int) - 0 < 60) ∧
    ((59 : Int) - 0 = 60 →
      unstake (init_state 0 0) { amount := 5, last_update := 0 } 59 5 ≠
        Except.error ProgErr.earlyUnstakeNotAllowed) :=
  C5_early_unstake_gate (init_state 0 0) { amount := 5, last_update := 0 }
    59 5 (by norm_num) (by norm_num [i64Min])

/-- C6 counterexample: with a zero totalVotes reading the call aborts with
the division panic where the claim, read with total integer division,
requires NotEnoughVotes; and with both tallies 2 to the 58 the true integer
ratio is 100, at least 60, yet the call aborts on the raw multiplication
overflow instead of succeeding. -/
theorem C6_counterexample :
    vote_on_risk_params_core 0 70 (init_state 0 0) 5 =
      Except.error ProgErr.panicked ∧
    ProgErr.panicked ≠ ProgErr.notEnoughVotes ∧
    vote_on_risk_params_core (2 ^ 58) (2 ^ 58) (init_state 0 0) 5 =
      Except.error ProgErr.panicked ∧
    60 ≤ 2 ^ 58 * 100 / 2 ^ 58 :=
  ⟨rfl, by decide, rfl, by norm_num⟩

/-- C6 amended: when totalVotes is positive and yesVotes * 100 fits in a
u64, vote_on_risk_params fails NotEnoughVotes exactly when
yesVotes * 100 / totalVotes < 60, and otherwise succeeds, unconditionally
setting allowed_delta_threshold to the new threshold with no other state
change; with a zero totalVotes or an overflowing product the call aborts
with a panic instead. -/
theorem C6_vote_threshold (tv yv nt : Nat) (st : State)
    (h1 : 0 < tv) (h2 : yv * 100 < u64Size) :
    (vote_on_risk_params_core tv yv st nt =
        Except.error ProgErr.notEnoughVotes ↔ yv * 100 / tv < 60) ∧
    (60 ≤ yv * 100 / tv →
      vote_on_risk_params_core tv yv st nt =
        Except.ok { st with allowed_delta_threshold := nt }) := by
  have htv : ¬ (tv = 0) := by omega
  constructor
  · rw [vote_core_eq]
    by_cases h3 : yv * 100 / tv < 60 <;> simp [h2, htv, h3]
  · intro h
    rw [vote_core_eq]
    have h3 : ¬ (yv * 100 / tv < 60) := not_lt.mpr h
    simp [h2, htv, h3]

/-- C6 witness: the amended threshold rule at the placeholder tallies 100
and 70 of the source. -/
theorem C6_vote_threshold_witness :
    (vote_on_risk_params_core 100 70 (init_state 0 0) 7 =
        Except.error ProgErr.notEnoughVotes ↔ 70 * 100 / 100 < 60) ∧
    (60 ≤ 70 * 100 / 100 →
      vote_on_risk_params_core 100 70 (init_state 0 0) 7 =
        Except.ok { init_state 0 0 with allowed_delta_threshold := 7 }) :=
  C6_vote_threshold 100 70 7 (init_state 0 0) (by norm_num)
    (by norm_num [u64Size])

/-- C7: stake_with_multiple_assets computes the normalized amount as
amount times the conversion rate of the asset type with a checked
multiplication, adds the normalized amount to both total_staked and the
user amount, stamps the user last_update with now, and the custody
transfer carries the raw amount, not the normalized amount. -/
theorem C7_multi_asset_stake (st : State) (us : UserStake) (now : Int)
    (asset_type amount rate : Nat)
    (hr : get_conversion_rate asset_type = Except.ok rate)
    (h1 : amount * rate < u64Size)
    (h2 : st.total_staked + amount * rate < u64Size)
    (h3 : us.amount + amount * rate < u64Size) :
    stake_with_multiple_assets st us now asset_type amount = Except.ok
      { state := { st with total_staked := st.total_staked + amount * rate }
        user_stake := { us with amount := us.amount + amount * rate,
                                last_update := now }
        events := [Event.ledgerTotalWrite (st.total_staked + amount * rate),
                   Event.ledgerUserWrite (us.amount + amount * rate),
                   Event.transferToVault amount] } := by
  simp only [get_conversion_rate, Except.ok.injEq] at hr
  subst hr
  simp only [Nat.mul_one] at h1 h2 h3 ⊢
  exact multi_stake_ok_iff.mpr ⟨h1, h2, h3, rfl⟩

/-- C7 witness: a concrete multi-asset stake of 7 units of asset type 2 at
conversion rate 1. -/
theorem C7_multi_asset_stake_witness :
    stake_with_multiple_assets (init_state 0 0)
        { amount := 0, last_update := 0 } 3 2 7 = Except.ok
      { state := { bump := 0, total_staked := 7, last_update := 0,
                   last_rebalance := 0, allowed_delta_threshold := 100 }
        user_stake := { amount := 7, last_update := 3 }
        events := [Event.ledgerTotalWrite 7, Event.ledgerUserWrite 7,
                   Event.transferToVault 7] } :=
  C7_multi_asset_stake (init_state 0 0) { amount := 0, last_update := 0 }
    3 2 7 1 rfl (by norm_num [u64Size]) (by norm_num [u64Size, init_state])
    (by norm_num [u64Size])

/-- C8: distribute_rewards mints exactly total_staked times the reward
rate 1 times the duration now - last_update, and resets the global
last_update to now. -/
theorem C8_distribute_rewards (st : State) (now : Int)
    (h0 : st.total_staked < u64Size)
    (h1 : st.last_update ≤ now)
    (h2 : now - st.last_update ≤ i64Max)
    (h3 : st.total_staked * (now - st.last_update).toNat < u64Size) :
    distribute_rewards st now = Except.ok
      { state := { st with last_update := now }
        events := [Event.mintTo
          (st.total_staked * 1 * (now - st.last_update).toNat)] } := by
  have hnn : (0 : Int) ≤ now - st.last_update := by omega
  have hc : i64AsU64 (now - st.last_update) = (now - st.last_update).toNat :=
    i64AsU64_of_nonneg hnn h2
  have h1' : i64Min ≤ now - st.last_update :=
    le_trans (by norm_num [i64Min]) hnn
  have hmain := distribute_rewards_ok h0 h1' h2 (by rw [hc]; exact h3)
  rw [hmain, hc]

/-- C8 witness: with total_staked 1000 and duration 10, exactly 10000 is
minted. -/
theorem C8_distribute_rewards_witness :
    distribute_rewards { bump := 0, total_staked := 1000, last_update := 0,
                         last_rebalance := 0, allowed_delta_threshold := 100 }
        10 = Except.ok
      { state := { bump := 0, total_staked := 1000, last_update := 10,
                   last_rebalance := 0, allowed_delta_threshold := 100 }
        events := [Event.mintTo 10000] } :=
  C8_distribute_rewards
    { bump := 0, total_staked := 1000, last_update := 0,
      last_rebalance := 0, allowed_delta_threshold := 100 } 10
    (by norm_num [u64Size]) (by norm_num) (by norm_num [i64Max])
    (by decide)

/-- C9 counterexample: a successful unstake at time 60 leaves the user
last_update at its old value 0 instead of the operation time, so
last_update does not hold the timestamp of the most recent unstake. -/
theorem C9_counterexample :
    unstake { bump := 0, total_staked := 100, last_update := 0,
              last_rebalance := 0, allowed_delta_threshold := 100 }
        { amount := 100, last_update := 0 } 60 40 =
      Except.ok
        { state := { bump := 0, total_staked := 60, last_update := 0,
                     last_rebalance := 0, allowed_delta_threshold := 100 }
          user_stake := { amount := 60, last_update := 0 }
          events := [Event.ledgerUserWrite 60, Event.ledgerTotalWrite 60,
                     Event.transferFromVault 40] } ∧
    (0 : Int) ≠ 60 :=
  ⟨rfl, by decide⟩

/-- C9 amended: stake and stake_with_multiple_assets stamp the user
last_update with the operation time; a successful unstake leaves it
unchanged. -/
theorem C9_last_update (st1 st2 st3 : State) (us1 us2 us3 : UserStake)
    (n1 n2 n3 : Int) (a1 t2 a2 a3 : Nat) (r1 r2 r3 : StakeResult)
    (h1 : stake st1 us1 n1 a1 = Except.ok r1)
    (h2 : stake_with_multiple_assets st2 us2 n2 t2 a2 = Except.ok r2)
    (h3 : unstake st3 us3 n3 a3 = Except.ok r3) :
    r1.user_stake.last_update = n1 ∧ r2.user_stake.last_update = n2 ∧
    r3.user_stake.last_update = us3.last_update := by
  obtain ⟨-, -, hr1⟩ := stake_ok_iff.mp h1
  obtain ⟨-, -, -, hr2⟩ := multi_stake_ok_iff.mp h2
  obtain ⟨-, -, -, -, -, hr3⟩ := unstake_ok_iff.mp h3
  subst hr1
  subst hr2
  subst hr3
  exact ⟨rfl, rfl, rfl⟩

/-- C9 witness: the amended timestamp rule at concrete successful
executions of the three instructions. -/
theorem C9_last_update_witness :
    (7 : Int) = 7 ∧ (3 : Int) = 3 ∧ (0 : Int) = 0 :=
  C9_last_update (init_state 0 0)
    (init_state 0 0)
    { bump := 0, total_staked := 100, last_update := 0,
      last_rebalance := 0, allowed_delta_threshold := 100 }
    { amount := 0, last_update := 0 } { amount := 0, last_update := 0 }
    { amount := 100, last_update := 0 } 7 3 60 5 2 7 40
    (stakeOkResult (init_state 0 0) { amount := 0, last_update := 0 } 7 5)
    (multiStakeOkResult (init_state 0 0)
      { amount := 0, last_update := 0 } 3 7 7)
    (unstakeOkResult
      { bump := 0, total_staked := 100, last_update := 0,
        last_rebalance := 0, allowed_delta_threshold := 100 }
      { amount := 100, last_update := 0 } 40)
    rfl rfl rfl

/-- Inversion for a successful distribute_rewards: the new state is the
old one with only last_update rewritten, and the only event is one mint to
the rewards account. -/
theorem distribute_rewards_ok_inv {st : State} {now : Int} {r : RewardResult}
    (h : distribute_rewards st now = Except.ok r) :
    r.state = { st with last_update := now } ∧
    ∃ a, r.events = [Event.mintTo a] := by
  unfold distribute_rewards unwrapI unwrapU at h
  cases hs : checkedSubI64 now st.last_update with
  | none => rw [hs] at h; simp [exbind_err] at h
  | some d =>
      rw [hs] at h
      simp only [exbind_ok] at h
      cases hm1 : checkedMulU64 st.total_staked 1 with
      | none => rw [hm1] at h; simp [exbind_err] at h
      | some m1 =>
          rw [hm1] at h
          simp only [exbind_ok] at h
          cases hm2 : checkedMulU64 m1 (i64AsU64 d) with
          | none => rw [hm2] at h; simp [exbind_err] at h
          | some m2 =>
              rw [hm2] at h
              simp only [exbind_ok, Except.ok.injEq] at h
              subst h
              exact ⟨rfl, m2, rfl⟩

/-- Inversion for a successful update_rewards_based_on_funding: the state
is returned untouched and the only event is one mint. -/
theorem update_rewards_ok_inv {st : State} {r : RewardResult}
    (h : update_rewards_based_on_funding st = Except.ok r) :
    r.state = st ∧ ∃ a, r.events = [Event.mintTo a] := by
  unfold update_rewards_based_on_funding get_funding_rate_from_oracle
    unwrapU at h
  simp only [exbind_ok] at h
  cases hm : checkedMulU64 st.total_staked 5 with
  | none => rw [hm] at h; simp [exbind_err] at h
  | some m =>
      rw [hm] at h
      simp only [exbind_ok] at h
      simp only [checkedDivU64, exbind_ok, Except.ok.injEq,
        if_neg (by decide : ¬ (100 = 0))] at h
      subst h
      exact ⟨rfl, m / 100, rfl⟩

/-- C10: each of the four reward entry points, on success, leaves
total_staked, allowed_delta_threshold, last_rebalance and bump unchanged
(no UserStake account is among their accounts at all, so participant
ledgers are untouched); each emits exactly one mint to the external
rewards account and credits nothing to the pool; only distribute_rewards
writes last_update, setting it to the operation time, while the other
three return the state identically. -/
theorem C10_reward_frame (st1 st2 st3 st4 : State) (now : Int)
    (r1 r2 r3 r4 : RewardResult)
    (h1 : distribute_rewards st1 now = Except.ok r1)
    (h2 : update_rewards_based_on_funding st2 = Except.ok r2)
    (h3 : distribute_arbitrage_profits st3 = Except.ok r3)
    (h4 : reward_liquidity_providers st4 = Except.ok r4) :
    (r1.state.total_staked = st1.total_staked ∧
     r1.state.allowed_delta_threshold = st1.allowed_delta_threshold ∧
     r1.state.last_rebalance = st1.last_rebalance ∧
     r1.state.bump = st1.bump ∧
     r1.state.last_update = now ∧
     (∃ a, r1.events = [Event.mintTo a])) ∧
    (r2.state = st2 ∧ ∃ a, r2.events = [Event.mintTo a]) ∧
    (r3.state = st3 ∧ ∃ a, r3.events = [Event.mintTo a]) ∧
    (r4.state = st4 ∧ ∃ a, r4.events = [Event.mintTo a]) := by
  obtain ⟨hs1, he1⟩ := distribute_rewards_ok_inv h1
  obtain ⟨hs2, he2⟩ := update_rewards_ok_inv h2
  rw [distribute_arbitrage_profits_eq] at h3
  rw [reward_liquidity_providers_eq] at h4
  simp only [Except.ok.injEq] at h3 h4
  subst h3
  subst h4
  refine ⟨?_, ⟨hs2, he2⟩, ⟨rfl, 1000, rfl⟩, ⟨rfl, 5, rfl⟩⟩
  rw [hs1]
  exact ⟨rfl, rfl, rfl, rfl, rfl, he1⟩

/-- C10 witness: the frame property at concrete successful executions of
all four reward entry points. -/
theorem C10_reward_frame_witness :
    ((1000 : Nat) = 1000 ∧ (100 : Nat) = 100 ∧ (4 : Int) = 4 ∧
     (0 : Nat) = 0 ∧ (10 : Int) = 10 ∧
     (∃ a, [Event.mintTo 10000] = [Event.mintTo a])) ∧
    (({ bump := 0, total_staked := 1000, last_update := 0,
        last_rebalance := 0, allowed_delta_threshold := 100 } : State) =
      { bump := 0, total_staked := 1000, last_update := 0,
        last_rebalance := 0, allowed_delta_threshold := 100 } ∧
     ∃ a, [Event.mintTo 50] = [Event.mintTo a]) ∧
    (init_state 0 0 = init_state 0 0 ∧
     ∃ a, [Event.mintTo 1000] = [Event.mintTo a]) ∧
    (init_state 0 0 = init_state 0 0 ∧
     ∃ a, [Event.mintTo 5] = [Event.mintTo a]) :=
  C10_reward_frame
    { bump := 0, total_staked := 1000, last_update := 0,
      last_rebalance := 4, allowed_delta_threshold := 100 }
    { bump := 0, total_staked := 1000, last_update := 0,
      last_rebalance := 0, allowed_delta_threshold := 100 }
    (init_state 0 0) (init_state 0 0) 10
    { state := { bump := 0, total_staked := 1000, last_update := 10,
                 last_rebalance := 4, allowed_delta_threshold := 100 }
      events := [Event.mintTo 10000] }
    { state := { bump := 0, total_staked := 1000, last_update := 0,
                 last_rebalance := 0, allowed_delta_threshold := 100 }
      events := [Event.mintTo 50] }
    { state := init_state 0 0, events := [Event.mintTo 1000] }
    { state := init_state 0 0, events := [Event.mintTo 5] }
    rfl rfl rfl rfl

end Dnt
